import Mathlib

/-!
Shallow embedding of `plugins/modules/resource_limit.py`, the CloudStack
resource-limit reconciliation module. The remote platform is modelled by an
explicit environment `Api` holding the responses one invocation would receive,
and every `query_api` call issued is collected in a trace, so that claims
about side effects and call ordering can be stated. Parts of the repository
that the module imports but that are not present here
(`plugins/module_utils/cloudstack.py`: `has_changed`, the scope getters,
`cs_required_together`) are modelled from the specification and marked as
such in their doc comments.
-/

namespace ResourceLimit

/-- Values appearing in API parameter maps and response records: integers and
strings. CloudStack resource-limit records are flat, so record fields are
scalars. -/
inductive Scalar where
  | int (n : Int)
  | str (s : String)
deriving DecidableEq

/-- A Python dict with string keys and scalar values, as an association list. -/
abbrev Record := List (String × Scalar)

/-- Lookup of a key in an association list (Python `d[k]`, `d.get(k)` and
`k in d`). -/
def assocLookup {α : Type} (k : String) : List (String × α) → Option α
  | [] => none
  | (k', v) :: rest => if k' = k then some v else assocLookup k rest

/-- Assignment to a key of a record (Python `d[k] = v`). -/
def setField (r : Record) (k : String) (v : Scalar) : Record :=
  match r with
  | [] => [(k, v)]
  | (k', v') :: rest => if k' = k then (k', v) :: rest else (k', v') :: setField rest k v

/-- Value of a decimal digit character. -/
def digitVal (c : Char) : Option Nat :=
  if 48 ≤ c.toNat ∧ c.toNat ≤ 57 then some (c.toNat - 48) else none

/-- Accumulating decimal parse of a digit list; any non-digit fails. -/
def parseDigits (acc : Nat) : List Char → Option Nat
  | [] => some acc
  | c :: cs =>
    match digitVal c with
    | some d => parseDigits (acc * 10 + d) cs
    | none => none

/-- Decimal integer parse of a character list: an optional minus sign
followed by at least one digit, as Python `int()` accepts for the strings
occurring here; anything else fails (`ValueError`). -/
def parseInt : List Char → Option Int
  | [] => none
  | c :: cs =>
    if c = '-' then
      match cs with
      | [] => none
      | _ => (parseDigits 0 cs).map fun n => -(n : Int)
    else (parseDigits 0 (c :: cs)).map fun n => (n : Int)

/-- Python `int()` on a scalar: an int is returned as is, a string is parsed
as a decimal integer, and a non-numeric string (`ValueError`) is `none`. -/
def pyInt : Scalar → Option Int
  | .int n => some n
  | .str s => parseInt s.data

/-- Python `int()` applied to a whole dict: always a `TypeError`, hence
`none`. Line 149 of the source applies `int` to the record itself rather than
to its limit field. -/
def pyIntRecord (_r : Record) : Option Int := none

/-- Terminal failures of one invocation: `module.fail_json` with a message, or
an uncaught Python `TypeError`. -/
inductive Err where
  | failJson (msg : String)
  | typeError
deriving DecidableEq

/-- The module parameters after Ansible argument parsing (source lines
177-189): `limit` is coerced to `int` (default `-1`), the scope names are
optional, and `check_mode` is the dry-run flag. -/
structure ModuleParams where
  resource_type : String
  limit : Int
  domain : Option String
  account : Option String
  project : Option String
  check_mode : Bool

/-- One invocation's remote environment: the name-resolution tables consulted
by the scope getters, and the responses the platform would give to the two
API calls. `listResp = none` models a falsy (empty) `listResourceLimits`
response, i.e. zero records; `some rec` models a truthy response whose
`resourcelimit` list holds the single matching record. `updateResp` is the
`resourcelimit` member of the `updateResourceLimit` response. -/
structure Api where
  domains : List (String × String)
  projects : List (String × String)
  accounts : List String
  listResp : Option Record
  updateResp : Record

/-- The remote calls issued through `query_api`, in the order they happen. -/
inductive ApiCall where
  | listResourceLimits (args : Record)
  | updateResourceLimit (args : Record)
deriving DecidableEq

/-- Source lines 111-123. -/
def RESOURCE_TYPES : List (String × Int) :=
  [("instance", 0), ("ip_address", 1), ("volume", 2), ("snapshot", 3),
   ("template", 4), ("network", 6), ("vpc", 7), ("cpu", 8), ("memory", 9),
   ("primary_storage", 10), ("secondary_storage", 11)]

/-- The enumerated symbolic resource-type names: the mapping's keys, which are
also the `choices` of the `resource_type` argument (source line 181). -/
def resource_type_names : List String := RESOURCE_TYPES.map Prod.fst

/-- Source lines 135-137: `RESOURCE_TYPES.get(resource_type)`. -/
def get_resource_type (resource_type : String) : Option Int :=
  assocLookup resource_type RESOURCE_TYPES

/-- Modelled from the spec: `AnsibleCloudStack.get_account` lives in
`plugins/module_utils/cloudstack.py`, which is not under `src/`. Per spec
§4.1 the account name is passed through unchanged, but a supplied name that
does not resolve to a remote object is a fatal NotFound error naming the
entity; an absent name resolves to absent. -/
def get_account (api : Api) (account : Option String) : Except Err (Option String) :=
  match account with
  | none => .ok none
  | some name =>
    if name ∈ api.accounts then .ok (some name)
    else .error (.failJson ("Account " ++ name ++ " not found"))

/-- Modelled from the spec: `AnsibleCloudStack.get_domain` lives in
`plugins/module_utils/cloudstack.py`, which is not under `src/`. Per spec
§4.1 a supplied domain name is resolved to the remote domain id, failing with
a NotFound error naming the entity when it does not resolve; an absent name
resolves to absent. -/
def get_domain (api : Api) (domain : Option String) : Except Err (Option String) :=
  match domain with
  | none => .ok none
  | some name =>
    match assocLookup name api.domains with
    | some id => .ok (some id)
    | none => .error (.failJson ("Domain " ++ name ++ " not found"))

/-- Modelled from the spec: `AnsibleCloudStack.get_project` lives in
`plugins/module_utils/cloudstack.py`, which is not under `src/`. Per spec
§4.1 a supplied project name is resolved to the remote project id, failing
with a NotFound error naming the entity when it does not resolve. -/
def get_project (api : Api) (project : Option String) : Except Err (Option String) :=
  match project with
  | none => .ok none
  | some name =>
    match assocLookup name api.projects with
    | some id => .ok (some id)
    | none => .error (.failJson ("Project " ++ name ++ " not found"))

/-- Scope resolution in the order the source builds its argument dicts
(lines 140-145 and 156-162): account, then domain, then project. The source
calls the three getters in both methods; the getters are pure (and cached by
the base class), so resolving once is equivalent. -/
def resolve_scope (api : Api) (p : ModuleParams) :
    Except Err (Option String × Option String × Option String) :=
  match get_account api p.account with
  | .error e => .error e
  | .ok acct =>
    match get_domain api p.domain with
    | .error e => .error e
    | .ok dom =>
      match get_project api p.project with
      | .error e => .error e
      | .ok proj => .ok (acct, dom, proj)

/-- A string parameter entry that is omitted when absent (`query_api` drops
`None` values, spec §4.3: "each absent one omitted, not sent as empty"). -/
def optStr (k : String) (v : Option String) : Record :=
  match v with
  | some s => [(k, Scalar.str s)]
  | none => []

/-- An integer parameter entry that is omitted when absent. -/
def optInt (k : String) (v : Option Int) : Record :=
  match v with
  | some n => [(k, Scalar.int n)]
  | none => []

/-- The `listResourceLimits` argument map (source lines 140-145). -/
def list_args (acct dom proj : Option String) (rt : Option Int) : Record :=
  optStr "account" acct ++ optStr "domainid" dom ++ optStr "projectid" proj ++
    optInt "resourcetype" rt

/-- The `updateResourceLimit` argument map (source lines 156-162): the list
arguments plus the desired limit under key `max`. -/
def update_args (acct dom proj : Option String) (rt : Option Int) (limit : Int) :
    Record :=
  list_args acct dom proj rt ++ [("max", Scalar.int limit)]

/-- Handling of the `listResourceLimits` response, source lines 146-151. When
the returned record contains a `limit` key, line 149 assigns
`int(resource_limit["resourcelimit"][0])` — `int` applied to the whole
record, a `TypeError` in Python — to that key before returning the record. A
falsy response is the not-found failure (the quotation marks the source puts
around the interpolated name are omitted here). -/
def read_limit_record (resp : Option Record) (resource_type : String) :
    Except Err Record :=
  match resp with
  | some rec =>
    if (assocLookup "limit" rec).isSome then
      match pyIntRecord rec with
      | some n => .ok (setField rec "limit" (Scalar.int n))
      | none => .error Err.typeError
    else .ok rec
  | none =>
    .error (.failJson ("Resource limit type " ++ resource_type ++ " not found."))

/-- Source lines 139-151: resolve the scope, issue the `listResourceLimits`
query and handle its response. The second component is the trace of API calls
issued; a scope-resolution failure aborts before any call. -/
def get_resource_limit (api : Api) (p : ModuleParams) :
    Except Err Record × List ApiCall :=
  match resolve_scope api p with
  | .error e => (.error e, [])
  | .ok (acct, dom, proj) =>
    (read_limit_record api.listResp p.resource_type,
     [ApiCall.listResourceLimits
        (list_args acct dom proj (get_resource_type p.resource_type))])

/-- Modelled from the spec: `AnsibleCloudStack.has_changed` lives in
`plugins/module_utils/cloudstack.py`, which is not under `src/`. Per spec
§4.4 the Change Detector compares only the desired limit (key `max` of the
argument map) against the record's current limit, both sides normalized to
integers; the scope fields are identity keys for the lookup and are never
themselves compared, and a key absent from the current record is skipped. -/
def has_changed (args : Record) (current : Record) : Bool :=
  match assocLookup "max" args, assocLookup "max" current with
  | some d, some c => decide (pyInt d ≠ pyInt c)
  | _, _ => false

/-- Source lines 153-169: fetch the current record, then mutate only when the
Change Detector reports a change and the module is not in check mode. The
first component carries the returned record together with the `changed` flag
of the result (initially false, set to true in the changed branches). -/
def update_resource_limit (api : Api) (p : ModuleParams) :
    Except Err (Record × Bool) × List ApiCall :=
  match resolve_scope api p with
  | .error e => (.error e, [])
  | .ok (acct, dom, proj) =>
    match read_limit_record api.listResp p.resource_type with
    | .error e =>
      (.error e,
       [ApiCall.listResourceLimits
          (list_args acct dom proj (get_resource_type p.resource_type))])
    | .ok resource_limit =>
      if has_changed
          (update_args acct dom proj (get_resource_type p.resource_type) p.limit)
          resource_limit then
        if p.check_mode then
          (.ok (resource_limit, true),
           [ApiCall.listResourceLimits
              (list_args acct dom proj (get_resource_type p.resource_type))])
        else
          (.ok (api.updateResp, true),
           [ApiCall.listResourceLimits
              (list_args acct dom proj (get_resource_type p.resource_type)),
            ApiCall.updateResourceLimit
              (update_args acct dom proj (get_resource_type p.resource_type) p.limit)])
      else
        (.ok (resource_limit, false),
         [ApiCall.listResourceLimits
            (list_args acct dom proj (get_resource_type p.resource_type))])

/-- Modelled from the spec: the argument validation of `main` (source lines
177-189) is performed by `AnsibleModule` and `cs_required_together`, which
are not under `src/`. Per spec §6, `resource_type` must be one of the
enumerated choices and `account` requires `domain` to also be set. -/
def valid_params (p : ModuleParams) : Bool :=
  resource_type_names.contains p.resource_type &&
    (!p.account.isSome || p.domain.isSome)

/-- Source lines 177-194: validate the arguments, then run the
reconciliation. An invalid argument set is rejected before the pipeline
runs, so no API call is issued. -/
def main_run (api : Api) (p : ModuleParams) :
    Except Err (Record × Bool) × List ApiCall :=
  if valid_params p then update_resource_limit api p
  else (.error (.failJson "invalid module arguments"), [])

/-- The shape every trace of one invocation has: scope resolution first
(issuing no call), then at most one read, then at most one write strictly
after the read. -/
def trace_ordered : List ApiCall → Prop
  | [] => True
  | [ApiCall.listResourceLimits _] => True
  | [ApiCall.listResourceLimits _, ApiCall.updateResourceLimit _] => True
  | _ => False

/-- An environment in which nothing resolves and the list query returns zero
records; concrete cases below override the fields they need. -/
def emptyApi : Api :=
  { domains := [], projects := [], accounts := [], listResp := none, updateResp := [] }

/-- Baseline concrete parameters; concrete cases below override fields. -/
def baseParams : ModuleParams :=
  { resource_type := "instance", limit := -1, domain := none, account := none,
    project := none, check_mode := false }

/-! Helper lemmas about association-list lookups. -/

theorem assocLookup_append {α : Type} (k : String) (xs ys : List (String × α)) :
    assocLookup k (xs ++ ys) =
      match assocLookup k xs with
      | some v => some v
      | none => assocLookup k ys := by
  induction xs with
  | nil => simp [assocLookup]
  | cons hd tl ih =>
    obtain ⟨k', v⟩ := hd
    by_cases h : k' = k <;> simp [assocLookup, h, ih]

theorem assocLookup_eq_none {α : Type} {k : String} {l : List (String × α)}
    (h : k ∉ l.map Prod.fst) : assocLookup k l = none := by
  induction l with
  | nil => rfl
  | cons hd tl ih =>
    obtain ⟨k', v⟩ := hd
    simp only [List.map_cons, List.mem_cons] at h
    push_neg at h
    simp [assocLookup, Ne.symm h.1, ih h.2]

theorem lookup_max_list_args (a d pr : Option String) (rt : Option Int) :
    assocLookup "max" (list_args a d pr rt) = none := by
  cases a <;> cases d <;> cases pr <;> cases rt <;>
    simp [list_args, optStr, optInt, assocLookup]

theorem lookup_max_update_args (a d pr : Option String) (rt : Option Int) (limit : Int) :
    assocLookup "max" (update_args a d pr rt limit) = some (Scalar.int limit) := by
  simp [update_args, assocLookup_append, lookup_max_list_args, assocLookup]

/-- When the fetched record already carries the desired limit under `max`,
the Change Detector reports no change. -/
theorem has_changed_false_of_current_eq (a d pr : Option String) (rt : Option Int)
    (limit : Int) (r : Record) (hmax : assocLookup "max" r = some (Scalar.int limit)) :
    has_changed (update_args a d pr rt limit) r = false := by
  simp [has_changed, lookup_max_update_args, hmax, pyInt]

/-- C1: the spec requires the Limit Reader to normalize the fetched limit to
a single integer field. The code instead applies Python `int()` to the whole
record (line 149): on a response whose record carries a `limit` field the
invocation dies with a `TypeError` and no record is returned at all. -/
theorem c1_limit_normalization_bug :
    (get_resource_limit
        { emptyApi with listResp := some [("limit", Scalar.int 20), ("max", Scalar.int 20)] }
        baseParams).1 = Except.error Err.typeError := by
  rfl

/-- C7: the resource-type mapping is total over the enumerated symbolic names
and injective: every enumerated name is assigned a code by
`get_resource_type`, and no two distinct names are assigned the same code. -/
theorem c7_type_mapping_total_injective :
    (resource_type_names.all fun n => (get_resource_type n).isSome) = true ∧
      resource_type_names.Pairwise fun a b => get_resource_type a ≠ get_resource_type b := by
  constructor <;> decide

/-- C9: the assigned integer codes are exactly 0, 1, 2, 3, 4, 6, 7, 8, 9,
10, 11; the code 5 is assigned to no symbolic type, and `network` maps to 6,
so the code sequence is not contiguous. -/
theorem c9_codes_skip_five :
    RESOURCE_TYPES.map Prod.snd = [0, 1, 2, 3, 4, 6, 7, 8, 9, 10, 11] ∧
      (RESOURCE_TYPES.all fun pr => pr.2 ≠ 5) = true ∧
      get_resource_type "network" = some 6 := by
  refine ⟨by decide, by decide, by decide⟩

/-- C10: `get_resource_type` returns no code for any name outside the
enumerated keys, and an integer code for every enumerated key, so under the
upstream `choices` validation the absent branch is unreachable. -/
theorem c10_unmapped_name_yields_none :
    (∀ s, s ∉ resource_type_names → get_resource_type s = none) ∧
      ∀ s ∈ resource_type_names, (get_resource_type s).isSome := by
  constructor
  · intro s hs
    exact assocLookup_eq_none hs
  · decide

/-- Witness for C10 at the concrete names `foo` and `instance`. -/
theorem c10_unmapped_name_yields_none_witness :
    get_resource_type "foo" = none ∧ (get_resource_type "instance").isSome :=
  ⟨c10_unmapped_name_yields_none.1 "foo" (by decide),
   c10_unmapped_name_yields_none.2 "instance" (by decide)⟩

/-- C4: (amended) with a falsy `listResourceLimits` response (zero records)
`get_resource_limit` fails fatally with a not-found message naming the
requested resource type and returns no record; with one record returned that
does not carry a `limit` field, that record is returned unchanged. (A record
carrying a `limit` field instead hits the defective conversion of line 149,
see the counterexample.) -/
theorem c4_read_zero_or_one_record (api : Api) (p : ModuleParams)
    (acct dom proj : Option String)
    (hres : resolve_scope api p = .ok (acct, dom, proj)) :
    (api.listResp = none →
      get_resource_limit api p =
        (.error (.failJson ("Resource limit type " ++ p.resource_type ++ " not found.")),
         [ApiCall.listResourceLimits
            (list_args acct dom proj (get_resource_type p.resource_type))])) ∧
    ∀ r, api.listResp = some r → assocLookup "limit" r = none →
      get_resource_limit api p =
        (.ok r,
         [ApiCall.listResourceLimits
            (list_args acct dom proj (get_resource_type p.resource_type))]) := by
  constructor
  · intro hnone
    simp [get_resource_limit, hres, read_limit_record, hnone]
  · intro r hr hnl
    simp [get_resource_limit, hres, read_limit_record, hr, hnl]

/-- Counterexample to C4 as stated: a response with exactly one record is
not returned when the record carries a `limit` field — the invocation dies
with a `TypeError` instead. -/
theorem c4_one_record_counterexample :
    (get_resource_limit { emptyApi with listResp := some [("limit", Scalar.int 10)] }
        baseParams).1 = Except.error Err.typeError := by
  rfl

/-- Witness for C4 on a concrete environment: zero records yield the
not-found failure, and a single `limit`-free record is returned unchanged. -/
theorem c4_read_zero_or_one_record_witness :
    get_resource_limit emptyApi baseParams =
      (.error (.failJson "Resource limit type instance not found."),
       [ApiCall.listResourceLimits [("resourcetype", Scalar.int 0)]]) ∧
    get_resource_limit { emptyApi with listResp := some [("max", Scalar.int 20)] }
        baseParams =
      (.ok [("max", Scalar.int 20)],
       [ApiCall.listResourceLimits [("resourcetype", Scalar.int 0)]]) := by
  constructor
  · exact (c4_read_zero_or_one_record emptyApi baseParams none none none (by rfl)).1 rfl
  · exact (c4_read_zero_or_one_record
      { emptyApi with listResp := some [("max", Scalar.int 20)] } baseParams
      none none none (by rfl)).2 [("max", Scalar.int 20)] rfl rfl

/-- Every possible trace of one invocation is ordered: empty, a single read,
or a read followed by the write. -/
theorem update_trace_ordered (api : Api) (p : ModuleParams) :
    trace_ordered (update_resource_limit api p).2 := by
  unfold update_resource_limit
  cases hres : resolve_scope api p with
  | error e => simp [trace_ordered]
  | ok t =>
    obtain ⟨acct, dom, proj⟩ := t
    cases hread : read_limit_record api.listResp p.resource_type with
    | error e => simp [trace_ordered]
    | ok r =>
      cases hch : has_changed
          (update_args acct dom proj (get_resource_type p.resource_type) p.limit) r with
      | false => simp [hch, trace_ordered]
      | true =>
        cases hcm : p.check_mode with
        | false => simp [hch, hcm, trace_ordered]
        | true => simp [hch, hcm, trace_ordered]

/-- C2: when the Change Detector reports no change, `update_resource_limit`
issues no `updateResourceLimit` call, returns the fetched record unmodified
and leaves `changed` false; in particular, when the fetched record already
carries the desired limit — the state right after a successful update — the
second invocation reports changed=false and performs no write. -/
theorem c2_no_change_no_write (api : Api) (p : ModuleParams)
    (acct dom proj : Option String) (r : Record)
    (hres : resolve_scope api p = .ok (acct, dom, proj))
    (hlist : api.listResp = some r)
    (hnl : assocLookup "limit" r = none) :
    (has_changed (update_args acct dom proj (get_resource_type p.resource_type) p.limit) r
        = false →
      update_resource_limit api p =
        (.ok (r, false),
         [ApiCall.listResourceLimits
            (list_args acct dom proj (get_resource_type p.resource_type))])) ∧
    (assocLookup "max" r = some (Scalar.int p.limit) →
      update_resource_limit api p =
        (.ok (r, false),
         [ApiCall.listResourceLimits
            (list_args acct dom proj (get_resource_type p.resource_type))])) := by
  have hread : read_limit_record api.listResp p.resource_type = .ok r := by
    simp [read_limit_record, hlist, hnl]
  constructor
  · intro hnc
    simp [update_resource_limit, hres, hread, hnc]
  · intro hmax
    have hnc := has_changed_false_of_current_eq acct dom proj
      (get_resource_type p.resource_type) p.limit r hmax
    simp [update_resource_limit, hres, hread, hnc]

/-- Witness for C2: desired limit -1 against a current record already at -1
yields changed=false, the fetched record and just the read call. -/
theorem c2_no_change_no_write_witness :
    update_resource_limit { emptyApi with listResp := some [("max", Scalar.int (-1))] }
        baseParams =
      (.ok ([("max", Scalar.int (-1))], false),
       [ApiCall.listResourceLimits [("resourcetype", Scalar.int 0)]]) :=
  (c2_no_change_no_write { emptyApi with listResp := some [("max", Scalar.int (-1))] }
    baseParams none none none [("max", Scalar.int (-1))] rfl rfl rfl).2 rfl

/-- C3: in check mode, a detected change sets changed=true but issues no
`updateResourceLimit` call, and the record returned is the previously fetched
one, reflecting the prior state. -/
theorem c3_check_mode_no_mutation (api : Api) (p : ModuleParams)
    (acct dom proj : Option String) (r : Record)
    (hcm : p.check_mode = true)
    (hres : resolve_scope api p = .ok (acct, dom, proj))
    (hlist : api.listResp = some r)
    (hnl : assocLookup "limit" r = none)
    (hch : has_changed (update_args acct dom proj (get_resource_type p.resource_type) p.limit) r
        = true) :
    update_resource_limit api p =
      (.ok (r, true),
       [ApiCall.listResourceLimits
          (list_args acct dom proj (get_resource_type p.resource_type))]) := by
  have hread : read_limit_record api.listResp p.resource_type = .ok r := by
    simp [read_limit_record, hlist, hnl]
  simp [update_resource_limit, hres, hread, hch, hcm]

/-- Witness for C3: desired limit 10 against current -1 in check mode yields
changed=true, the prior record, and no write call. -/
theorem c3_check_mode_no_mutation_witness :
    update_resource_limit { emptyApi with listResp := some [("max", Scalar.int (-1))] }
        { baseParams with limit := 10, check_mode := true } =
      (.ok ([("max", Scalar.int (-1))], true),
       [ApiCall.listResourceLimits [("resourcetype", Scalar.int 0)]]) :=
  c3_check_mode_no_mutation { emptyApi with listResp := some [("max", Scalar.int (-1))] }
    { baseParams with limit := 10, check_mode := true } none none none
    [("max", Scalar.int (-1))] rfl rfl rfl rfl rfl

/-- C5: the Change Detector reports a change iff the desired and current
limits differ once both are normalized to integers; a string desired limit
"10" equals an integer current limit 10, desired 10 against current -1 is a
change, and scope entries carried alongside never affect the verdict. -/
theorem c5_change_detector (d c : Scalar) (args current : Record)
    (hd : assocLookup "max" args = some d)
    (hc : assocLookup "max" current = some c) :
    (has_changed args current = true ↔ pyInt d ≠ pyInt c) ∧
    has_changed [("max", Scalar.str "10")] [("max", Scalar.int 10)] = false ∧
    has_changed [("max", Scalar.int 10)] [("max", Scalar.int (-1))] = true ∧
    ∀ scope : Record, assocLookup "max" scope = none →
      has_changed (scope ++ args) current = has_changed args current := by
  refine ⟨?_, by decide, by decide, ?_⟩
  · simp [has_changed, hd, hc]
  · intro scope hscope
    simp [has_changed, assocLookup_append, hscope]

/-- Witness for C5 at desired "10" (string) and current 10 (integer). -/
theorem c5_change_detector_witness :
    has_changed [("max", Scalar.str "10")] [("max", Scalar.int 10)] = true ↔
      pyInt (Scalar.str "10") ≠ pyInt (Scalar.int 10) :=
  (c5_change_detector (Scalar.str "10") (Scalar.int 10)
    [("max", Scalar.str "10")] [("max", Scalar.int 10)] rfl rfl).1

/-- C6: a supplied domain name that does not resolve aborts the invocation
with a fatal error naming the entity before any read or write call is
issued; and every trace is ordered, resolution before the read before the
write. -/
theorem c6_unresolved_scope_aborts (api : Api) (p : ModuleParams) (name : String)
    (hacct : p.account = none)
    (hdom : p.domain = some name)
    (hmiss : assocLookup name api.domains = none) :
    update_resource_limit api p =
      (.error (.failJson ("Domain " ++ name ++ " not found")), []) ∧
    ∀ (api2 : Api) (p2 : ModuleParams), trace_ordered (update_resource_limit api2 p2).2 := by
  constructor
  · have hres : resolve_scope api p =
        .error (.failJson ("Domain " ++ name ++ " not found")) := by
      simp [resolve_scope, get_account, get_domain, hacct, hdom, hmiss]
    simp [update_resource_limit, hres]
  · intro api2 p2
    exact update_trace_ordered api2 p2

/-- Witness for C6 at the unresolvable domain name of spec scenario C. -/
theorem c6_unresolved_scope_aborts_witness :
    update_resource_limit emptyApi { baseParams with domain := some "unknown-domain" } =
      (.error (.failJson "Domain unknown-domain not found"), []) :=
  (c6_unresolved_scope_aborts emptyApi { baseParams with domain := some "unknown-domain" }
    "unknown-domain" rfl rfl rfl).1

/-- C8: an invocation that supplies `account` without `domain` is rejected by
argument validation, and the reconciliation pipeline never runs: no API call
is issued. -/
theorem c8_account_requires_domain (api : Api) (p : ModuleParams) (a : String)
    (ha : p.account = some a) (hd : p.domain = none) :
    main_run api p = (.error (.failJson "invalid module arguments"), []) := by
  have hv : valid_params p = false := by
    simp [valid_params, ha, hd]
  simp [main_run, hv]

/-- Witness for C8 with a concrete account and no domain. -/
theorem c8_account_requires_domain_witness :
    main_run emptyApi { baseParams with account := some "moserre" } =
      (.error (.failJson "invalid module arguments"), []) :=
  c8_account_requires_domain emptyApi { baseParams with account := some "moserre" }
    "moserre" rfl rfl

end ResourceLimit
